import Mathlib

/-!
Shallow embedding of the BRIDGING hand-sign capture core: the detector
bridge (WebView request/response with timeout), the pose-stability
auto-capture engine, the frame admission controller, the classification
retry client, the duplicate/cooldown filter and the sentence buffer.
Definitions are translated from the TypeScript source; floating-point
coordinates are modelled as rationals, with the Euclidean distance taken
in the reals.
-/

/-- One normalized hand landmark `{x, y, z}`. -/
structure Landmark where
  x : ℚ
  y : ℚ
  z : ℚ
deriving DecidableEq, Repr

/-- `detectFromBase64`'s successful payload: 21 landmarks plus confidence. -/
structure DetectedLandmarks where
  landmarks : List Landmark
  confidence : ℚ
deriving DecidableEq, Repr

-- ── Auto-detect tuning constants (TSLCameraScreen) ──
def AUTO_CAPTURE_INTERVAL : ℕ := 1500
def POSE_CHANGE_THRESHOLD : ℚ := 35 / 1000
def STABILITY_FRAMES : ℕ := 2
def DUPLICATE_LETTER_COOLDOWN : ℤ := 2000

/-- Result of `landmarkDistance`: JavaScript `Infinity` or a finite real. -/
inductive LDist where
  | infinite : LDist
  | finite : ℝ → LDist

/-- `Math.sqrt(dx*dx + dy*dy + dz*dz)` for one landmark pair. -/
noncomputable def pointDist (p q : Landmark) : ℝ :=
  Real.sqrt (((p.x : ℝ) - (q.x : ℝ)) ^ 2 + ((p.y : ℝ) - (q.y : ℝ)) ^ 2
    + ((p.z : ℝ) - (q.z : ℝ)) ^ 2)

/-- `landmarkDistance`: average Euclidean distance between two landmark
arrays; mismatched lengths or empty arrays give `Infinity`. -/
noncomputable def landmarkDistance (a b : List Landmark) : LDist :=
  if a.length ≠ b.length ∨ a.length = 0 then .infinite
  else .finite ((((a.zip b).map fun pq => pointDist pq.1 pq.2).sum) / (a.length : ℝ))

/-- The engine's test `dist > POSE_CHANGE_THRESHOLD`; `Infinity` exceeds
every threshold. -/
def LDist.gtThreshold : LDist → ℚ → Prop
  | .infinite, _ => True
  | .finite r, t => (t : ℝ) < r

noncomputable instance (d : LDist) (t : ℚ) : Decidable (d.gtThreshold t) := by
  cases d with
  | infinite => exact isTrue trivial
  | finite r => exact inferInstanceAs (Decidable ((t : ℝ) < r))

lemma pointDist_comm (p q : Landmark) : pointDist p q = pointDist q p := by
  unfold pointDist
  ring_nf

lemma pointDist_self (p : Landmark) : pointDist p p = 0 := by
  unfold pointDist
  simp

lemma zip_self_eq {α : Type} (a : List α) : a.zip a = a.map fun x => (x, x) := by
  induction a with
  | nil => rfl
  | cons h t ih => simp [List.zip_cons_cons, ih]

lemma landmarkDistance_comm (a b : List Landmark) :
    landmarkDistance a b = landmarkDistance b a := by
  unfold landmarkDistance
  by_cases hlen : a.length = b.length
  · by_cases hz : a.length = 0
    · simp [hlen, hz, hlen ▸ hz]
    · have hbz : ¬ b.length = 0 := by omega
      have hzip : (b.zip a).map (fun pq => pointDist pq.1 pq.2)
          = (a.zip b).map (fun pq => pointDist pq.1 pq.2) := by
        rw [← List.zip_swap a b, List.map_map]
        refine List.map_congr_left ?_
        intro pq _
        exact pointDist_comm pq.2 pq.1
      simp [hlen, hz, hbz, hzip]
  · have : ¬ b.length = a.length := fun h => hlen h.symm
    simp [hlen, this]

lemma landmarkDistance_self {a : List Landmark} (ha : a ≠ []) :
    landmarkDistance a a = .finite 0 := by
  unfold landmarkDistance
  have hz : a.length ≠ 0 := by simpa [List.length_eq_zero] using ha
  have hsum : ((a.zip a).map fun pq => pointDist pq.1 pq.2).sum = 0 := by
    apply List.sum_eq_zero
    intro x hx
    simp only [zip_self_eq, List.map_map, List.mem_map] at hx
    obtain ⟨p, _, hp⟩ := hx
    simpa [pointDist_self] using hp.symm
  simp [hz, hsum]

lemma landmarkDistance_self_not_gt {a : List Landmark} (ha : a ≠ []) :
    ¬ (landmarkDistance a a).gtThreshold POSE_CHANGE_THRESHOLD := by
  rw [landmarkDistance_self ha]
  show ¬ ((POSE_CHANGE_THRESHOLD : ℝ) < 0)
  rw [not_lt]
  norm_num [POSE_CHANGE_THRESHOLD]

/-- C8: `landmarkDistance` is symmetric, evaluates to 0 on a nonempty array
paired with itself, and is infinite on mismatched-length or empty inputs. -/
theorem landmarkDistance_symm_self_zero_and_infinite :
    (∀ a b : List Landmark, landmarkDistance a b = landmarkDistance b a) ∧
    (∀ a : List Landmark, a ≠ [] → landmarkDistance a a = .finite 0) ∧
    (∀ a b : List Landmark, a.length ≠ b.length ∨ a.length = 0 →
      landmarkDistance a b = .infinite) := by
  refine ⟨landmarkDistance_comm, fun a ha => landmarkDistance_self ha, ?_⟩
  intro a b h
  unfold landmarkDistance
  rcases h with h | h
  · simp [h]
  · simp [h]

/-- Witness for C8: concrete instantiations discharging the hypotheses. -/
theorem landmarkDistance_symm_self_zero_and_infinite_witness :
    landmarkDistance [⟨0, 0, 0⟩] [⟨0, 0, 0⟩] = .finite 0 ∧
    landmarkDistance [] [⟨0, 0, 0⟩] = .infinite :=
  ⟨landmarkDistance_symm_self_zero_and_infinite.2.1 [⟨0, 0, 0⟩] (by decide),
   landmarkDistance_symm_self_zero_and_infinite.2.2 [] [⟨0, 0, 0⟩] (by decide)⟩

/-!
## Detector Bridge (HandLandmarkDetector)

`detectFromBase64` stores a single resolver in `resolverRef`, schedules a
15000 ms timeout that resolves the pending promise with `null`, and sends
the image to the WebView.  `handleMessage` resolves the pending promise on
a `landmarks` / `no_hand` / `error` message and clears the resolver slot;
a `ready` message only flips the readiness flag; an unparsable message is
caught and ignored.  The model runs one call's lifetime over a list of
timestamped events.
-/

/-- A message posted by the WebView, as parsed by `handleMessage`;
`malformed` stands for a message whose JSON parse throws. -/
inductive BridgeMsg where
  | ready : BridgeMsg
  | landmarks : List Landmark → Option ℚ → BridgeMsg
  | noHand : BridgeMsg
  | error : String → BridgeMsg
  | malformed : BridgeMsg
deriving DecidableEq

/-- An event the bridge reacts to: an incoming WebView message or the
firing of the detection timeout timer. -/
inductive BridgeEvent where
  | msg : BridgeMsg → BridgeEvent
  | timerFire : BridgeEvent
deriving DecidableEq

/-- Bridge component state: the `isReady` flag and whether
`resolverRef.current` is non-null (a call is pending). -/
structure BridgeState where
  isReady : Bool
  resolver : Bool
deriving DecidableEq

/-- How a `detectFromBase64` promise ends. -/
inductive DetectResolution where
  | resolved : Option DetectedLandmarks → DetectResolution
  | rejected : String → DetectResolution
deriving DecidableEq

/-- `data.confidence || 0.9`: a missing or zero confidence becomes 0.9. -/
def confOr (c : Option ℚ) : ℚ :=
  match c with
  | none => 9 / 10
  | some v => if v = 0 then 9 / 10 else v

/-- The body of `handleMessage` for one parsed message. -/
def handleMessage (st : BridgeState) (m : BridgeMsg) :
    BridgeState × Option DetectResolution :=
  match m with
  | .ready => (⟨true, st.resolver⟩, none)
  | .landmarks lms conf =>
      (⟨st.isReady, false⟩,
       if st.resolver then some (.resolved (some ⟨lms, confOr conf⟩)) else none)
  | .noHand =>
      (⟨st.isReady, false⟩, if st.resolver then some (.resolved none) else none)
  | .error _ =>
      (⟨st.isReady, false⟩, if st.resolver then some (.resolved none) else none)
  | .malformed => (st, none)

/-- The `setTimeout` callback: resolve with `null` only if the resolver
slot is still occupied. -/
def timeoutFire (st : BridgeState) : BridgeState × Option DetectResolution :=
  if st.resolver then (⟨st.isReady, false⟩, some (.resolved none)) else (st, none)

def bridgeStep (st : BridgeState) : BridgeEvent → BridgeState × Option DetectResolution
  | .msg m => handleMessage st m
  | .timerFire => timeoutFire st

/-- The synchronous prefix of `detectFromBase64`: reject if not ready,
otherwise arm the resolver slot (and schedule the timeout / post the
image, which appear as later events). -/
def detectFromBase64Start (st : BridgeState) : BridgeState × Option DetectResolution :=
  if !st.isReady then (st, some (.rejected "Detector not ready"))
  else (⟨st.isReady, true⟩, none)

/-- Run the bridge over timestamped events, collecting every promise
resolution together with the time at which it happened. -/
def bridgeRun (st : BridgeState) : List (ℕ × BridgeEvent) →
    BridgeState × List (ℕ × DetectResolution)
  | [] => (st, [])
  | (t, e) :: rest =>
    let s := bridgeStep st e
    let r := bridgeRun s.1 rest
    (r.1, (match s.2 with | some out => [(t, out)] | none => []) ++ r.2)

/-- Events that cannot resolve the pending call: a `ready` notification or
an unparsable message. -/
def nonDetectionEvent (e : BridgeEvent) : Prop :=
  e = .msg .ready ∨ e = .msg .malformed

/-- Events whose handler resolves a pending call: a correlated detection
message or the timeout. -/
def resolutiveEvent : BridgeEvent → Prop
  | .msg (.landmarks _ _) => True
  | .msg .noHand => True
  | .msg (.error _) => True
  | .timerFire => True
  | .msg .ready => False
  | .msg .malformed => False

lemma bridgeStep_nonDetection {st : BridgeState} {e : BridgeEvent}
    (h : nonDetectionEvent e) :
    (bridgeStep st e).1.resolver = st.resolver ∧ (bridgeStep st e).2 = none := by
  rcases h with h | h <;> subst h <;> simp [bridgeStep, handleMessage]

lemma bridgeRun_unarmed (r : Bool) (evs : List (ℕ × BridgeEvent)) :
    (bridgeRun ⟨r, false⟩ evs).2 = [] := by
  induction evs generalizing r with
  | nil => rfl
  | cons te rest ih =>
    obtain ⟨t, e⟩ := te
    cases e with
    | msg m =>
      cases m <;> simp [bridgeRun, bridgeStep, handleMessage, ih]
    | timerFire => simp [bridgeRun, bridgeStep, timeoutFire, ih]

lemma bridgeRun_armed_le_one (r : Bool) (evs : List (ℕ × BridgeEvent)) :
    (bridgeRun ⟨r, true⟩ evs).2.length ≤ 1 := by
  induction evs generalizing r with
  | nil => simp [bridgeRun]
  | cons te rest ih =>
    obtain ⟨t, e⟩ := te
    cases e with
    | msg m =>
      cases m with
      | ready => simpa [bridgeRun, bridgeStep, handleMessage] using ih true
      | landmarks lms c =>
        simp [bridgeRun, bridgeStep, handleMessage, bridgeRun_unarmed]
      | noHand => simp [bridgeRun, bridgeStep, handleMessage, bridgeRun_unarmed]
      | error s => simp [bridgeRun, bridgeStep, handleMessage, bridgeRun_unarmed]
      | malformed => simpa [bridgeRun, bridgeStep, handleMessage] using ih r
    | timerFire => simp [bridgeRun, bridgeStep, timeoutFire, bridgeRun_unarmed]

lemma bridgeRun_armed_resolutive (r : Bool) (evs : List (ℕ × BridgeEvent))
    (h : ∃ te ∈ evs, resolutiveEvent te.2) :
    (bridgeRun ⟨r, true⟩ evs).2.length = 1 := by
  induction evs generalizing r with
  | nil => simp at h
  | cons te rest ih =>
    obtain ⟨t, e⟩ := te
    cases e with
    | msg m =>
      cases m with
      | ready =>
        have h' : ∃ te ∈ rest, resolutiveEvent te.2 := by
          rcases h with ⟨x, hx, hres⟩
          rcases List.mem_cons.mp hx with hx | hx
          · subst hx; simp [resolutiveEvent] at hres
          · exact ⟨x, hx, hres⟩
        simpa [bridgeRun, bridgeStep, handleMessage] using ih true h'
      | landmarks lms c =>
        simp [bridgeRun, bridgeStep, handleMessage, bridgeRun_unarmed]
      | noHand => simp [bridgeRun, bridgeStep, handleMessage, bridgeRun_unarmed]
      | error s => simp [bridgeRun, bridgeStep, handleMessage, bridgeRun_unarmed]
      | malformed =>
        have h' : ∃ te ∈ rest, resolutiveEvent te.2 := by
          rcases h with ⟨x, hx, hres⟩
          rcases List.mem_cons.mp hx with hx | hx
          · subst hx; simp [resolutiveEvent] at hres
          · exact ⟨x, hx, hres⟩
        simpa [bridgeRun, bridgeStep, handleMessage] using ih r h'
    | timerFire => simp [bridgeRun, bridgeStep, timeoutFire, bridgeRun_unarmed]

/-- C3: a `detectFromBase64` call resolves at most once — once the
resolver slot is cleared no later message or timer firing produces any
resolution, an armed call emits at most one resolution over any event
sequence, and exactly one as soon as some resolving event (detection
message or timeout) occurs. -/
theorem detect_resolves_exactly_once (r : Bool) (evs : List (ℕ × BridgeEvent)) :
    (bridgeRun ⟨r, false⟩ evs).2 = [] ∧
    (bridgeRun ⟨r, true⟩ evs).2.length ≤ 1 ∧
    ((∃ te ∈ evs, resolutiveEvent te.2) → (bridgeRun ⟨r, true⟩ evs).2.length = 1) :=
  ⟨bridgeRun_unarmed r evs, bridgeRun_armed_le_one r evs,
   fun h => bridgeRun_armed_resolutive r evs h⟩

/-- Witness for C3: a late no-hand message after the timeout already
resolved the call is a no-op, and the armed call resolves exactly once. -/
theorem detect_resolves_exactly_once_witness :
    (bridgeRun ⟨true, false⟩ [(16000, .msg .noHand)]).2 = [] ∧
    (bridgeRun ⟨true, true⟩ [(15000, .timerFire), (16000, .msg .noHand)]).2.length = 1 :=
  ⟨(detect_resolves_exactly_once true [(16000, .msg .noHand)]).1,
   (detect_resolves_exactly_once true [(15000, .timerFire), (16000, .msg .noHand)]).2.2
     ⟨(15000, .timerFire), by simp, trivial⟩⟩

lemma bridgeRun_armed_nonDetection_events (evs : List (ℕ × BridgeEvent))
    (hsafe : ∀ te ∈ evs, nonDetectionEvent te.2) (tail : List (ℕ × BridgeEvent)) :
    (bridgeRun ⟨true, true⟩ (evs ++ tail)).2 = (bridgeRun ⟨true, true⟩ tail).2 := by
  induction evs with
  | nil => rfl
  | cons te rest ih =>
    obtain ⟨t, e⟩ := te
    have he := hsafe (t, e) (by simp)
    rcases he with he | he <;> subst he <;>
      simpa [bridgeRun, bridgeStep, handleMessage] using
        ih (fun x hx => hsafe x (List.mem_cons_of_mem _ hx))

/-- C1: a call made after readiness whose correlated reply never arrives
does not reject at issue time, and over a run containing only
non-detection events plus the scheduled timeout firing (which `setTimeout`
fires no earlier than 15000 ms after the call), the promise resolves
exactly once, with the no-hand outcome `null`, at the timer's firing time
— hence at or after `t₀ + 15000` and never before, and never by
rejection. -/
theorem detect_timeout_resolves_noHand (t₀ tT : ℕ)
    (pre post : List (ℕ × BridgeEvent))
    (htT : t₀ + 15000 ≤ tT)
    (hsafe : ∀ te ∈ pre ++ post, nonDetectionEvent te.2) :
    (detectFromBase64Start ⟨true, false⟩).2 = none ∧
    (bridgeRun (detectFromBase64Start ⟨true, false⟩).1
        (pre ++ (tT, .timerFire) :: post)).2 = [(tT, .resolved none)] ∧
    t₀ + 15000 ≤ tT := by
  refine ⟨rfl, ?_, htT⟩
  have hstart : (detectFromBase64Start ⟨true, false⟩).1 = ⟨true, true⟩ := rfl
  rw [hstart]
  have hpre : ∀ te ∈ pre, nonDetectionEvent te.2 := fun te h =>
    hsafe te (List.mem_append_left _ h)
  have hpost : ∀ te ∈ post, nonDetectionEvent te.2 := fun te h =>
    hsafe te (List.mem_append_right _ h)
  rw [bridgeRun_armed_nonDetection_events pre hpre]
  have : (bridgeRun ⟨true, true⟩ ((tT, BridgeEvent.timerFire) :: post)).2
      = [(tT, .resolved none)] ++ (bridgeRun ⟨true, false⟩ post).2 := by
    simp [bridgeRun, bridgeStep, timeoutFire]
  rw [this, bridgeRun_unarmed]
  simp

/-- Witness for C1: the bare timeout firing at 15000 ms resolves the call
with `null`. -/
theorem detect_timeout_resolves_noHand_witness :
    (detectFromBase64Start ⟨true, false⟩).2 = none ∧
    (bridgeRun (detectFromBase64Start ⟨true, false⟩).1
        [(15000, .timerFire)]).2 = [(15000, .resolved none)] :=
  ⟨(detect_timeout_resolves_noHand 0 15000 [] [] (by decide) (by simp)).1,
   (detect_timeout_resolves_noHand 0 15000 [] [] (by decide) (by simp)).2.1⟩

/-!
## TSLCameraScreen state (auto-capture engine, manual capture, sentence)

The screen's refs and state hooks are gathered into one record; the
sentence string is modelled as its character list.  `runSingleAutoCapture`
is one auto-capture cycle, taking the cycle's photo success, detection
outcome, classifier response and `Date.now()` value as inputs and
reporting whether `apiService.predictSign` was invoked.
-/

/-- The classifier's response body (`PredictionResponse`); a missing
`letter` is the empty string, mirroring `response.letter || ''`. -/
structure PredictionResponse where
  letter : String
  confidence : Option ℚ
  error : Option String
deriving DecidableEq, Repr

/-- TSLCameraScreen component state and refs relevant to the core logic. -/
structure ScreenState where
  isCapturing : Bool
  isDetectorReady : Bool
  autoMode : Bool
  prevLandmarks : Option (List Landmark)
  stableCount : ℕ
  lastAcceptedLetter : String
  lastAcceptedTime : ℤ
  sentence : List Char
  lastLetter : String
  confidence : ℚ
  statusText : String

/-- `response.confidence || detection.confidence`: a missing or zero
response confidence falls back to the detection's confidence. -/
def confFallback (rc : Option ℚ) (dc : ℚ) : ℚ :=
  match rc with
  | none => dc
  | some v => if v = 0 then dc else v

/-- The duplicate-suppression test and ref updates of
`runSingleAutoCapture` (lines 222–234): reject when the same letter
reappears within the cooldown, otherwise accept and record letter and
time.  Returns (accepted, lastAcceptedLetter', lastAcceptedTime'). -/
def filterStep (lastLetter : String) (lastTime : ℤ) (letter : String) (now : ℤ) :
    Bool × String × ℤ :=
  if letter = lastLetter ∧ now - lastTime < DUPLICATE_LETTER_COOLDOWN then
    (false, lastLetter, lastTime)
  else
    (true, letter, now)

/-- One auto-capture cycle (`runSingleAutoCapture`).  Inputs: whether the
photo had a base64 payload, the detector-bridge outcome, the classifier
response (consulted only if the pose is submitted) and `Date.now()`.
Returns the new state and whether `apiService.predictSign` was invoked. -/
noncomputable def runSingleAutoCapture (st : ScreenState) (photoOk : Bool)
    (det : Option DetectedLandmarks) (resp : PredictionResponse) (now : ℤ) :
    ScreenState × Bool :=
  if ¬ st.autoMode then (st, false)
  else if ¬ photoOk then (st, false)
  else
    match det with
    | none =>
      ({st with prevLandmarks := none, stableCount := 0,
                statusText := "Show your hand sign"}, false)
    | some detection =>
      let newLandmarks := detection.landmarks
      match st.prevLandmarks with
      | none =>
        ({st with prevLandmarks := some newLandmarks, stableCount := 1,
                  statusText := "Hold steady..."}, false)
      | some prev =>
        if (landmarkDistance newLandmarks prev).gtThreshold POSE_CHANGE_THRESHOLD then
          ({st with prevLandmarks := some newLandmarks, stableCount := 1,
                    statusText := "New pose detected — hold..."}, false)
        else if st.stableCount + 1 < STABILITY_FRAMES then
          ({st with stableCount := st.stableCount + 1,
                    statusText := "Hold steady..."}, false)
        else
          let st1 := {st with stableCount := 0, statusText := "Recognizing..."}
          if resp.error ≠ none then
            ({st1 with statusText := "Auto-detect active"}, true)
          else
            let letter := resp.letter
            let conf := confFallback resp.confidence detection.confidence
            if letter = "" ∨ letter = "Unknown" then
              ({st1 with statusText := "Auto-detect active"}, true)
            else
              let f := filterStep st.lastAcceptedLetter st.lastAcceptedTime letter now
              if f.1 then
                ({st1 with lastAcceptedLetter := f.2.1, lastAcceptedTime := f.2.2,
                           prevLandmarks := some newLandmarks,
                           lastLetter := letter, confidence := conf,
                           statusText := "Auto: " ++ letter,
                           sentence := st.sentence ++ letter.data}, true)
              else
                ({st1 with
                    statusText := "Holding \"" ++ letter ++ "\" — move hand for next"},
                 true)

/-- `toggleAutoMode`: flip the mode; on turning off, clear the tracking
refs and the last accepted letter. -/
def toggleAutoMode (st : ScreenState) : ScreenState :=
  if st.autoMode then
    {st with autoMode := false, prevLandmarks := none, stableCount := 0,
             lastAcceptedLetter := "", statusText := "Show your hand sign"}
  else
    {st with autoMode := true}

/-- Manual single-shot capture (`handleCapture`).  Inputs as for the auto
cycle; every exit path clears `isCapturing` (the `finally` block). -/
def handleCapture (st : ScreenState) (photoOk : Bool)
    (det : Option DetectedLandmarks) (resp : PredictionResponse) : ScreenState :=
  if st.isCapturing then st
  else if ¬ st.isDetectorReady then st
  else
    let st0 := {st with isCapturing := true, statusText := "Capturing..."}
    let stFin :=
      if ¬ photoOk then st0
      else
        match det with
        | none => {st0 with statusText := "Show your hand sign"}
        | some detection =>
          let st1 := {st0 with statusText := "Sending to AI..."}
          if resp.error ≠ none then {st1 with statusText := "Show your hand sign"}
          else
            let letter := resp.letter
            let conf := confFallback resp.confidence detection.confidence
            if letter ≠ "" ∧ letter ≠ "Unknown" then
              {st1 with lastLetter := letter, confidence := conf,
                        statusText := "Detected: " ++ letter,
                        sentence := st.sentence ++ letter.data}
            else {st1 with statusText := "Could not recognize. Try again."}
    {stFin with isCapturing := false}

/-- `handleSpace`: no-op on an empty sentence or one already ending in a
space, otherwise append one space. -/
def handleSpace (s : List Char) : List Char :=
  if s.length = 0 then s
  else if s.getLast? = some ' ' then s
  else s ++ [' ']

/-- `handleBackspace`: drop the last character of a nonempty sentence. -/
def handleBackspace (s : List Char) : List Char :=
  if s.length = 0 then s else s.dropLast

/-- The empty screen state used when the screen mounts (auto mode already
toggled on, detector ready). -/
def initialScreen : ScreenState :=
  { isCapturing := false, isDetectorReady := true, autoMode := true,
    prevLandmarks := none, stableCount := 0, lastAcceptedLetter := "",
    lastAcceptedTime := 0, sentence := [], lastLetter := "", confidence := 0,
    statusText := "Auto-detect active" }

lemma autoStep_noHand (st : ScreenState) (resp : PredictionResponse) (now : ℤ)
    (hauto : st.autoMode = true) :
    runSingleAutoCapture st true none resp now
      = ({st with prevLandmarks := none, stableCount := 0,
                  statusText := "Show your hand sign"}, false) := by
  simp [runSingleAutoCapture, hauto]

lemma autoStep_first (st : ScreenState) (P : List Landmark) (c : ℚ)
    (resp : PredictionResponse) (now : ℤ)
    (hauto : st.autoMode = true) (hprev : st.prevLandmarks = none) :
    runSingleAutoCapture st true (some ⟨P, c⟩) resp now
      = ({st with prevLandmarks := some P, stableCount := 1,
                  statusText := "Hold steady..."}, false) := by
  simp [runSingleAutoCapture, hauto, hprev]

lemma autoStep_stabilizing (st : ScreenState) (P : List Landmark) (c : ℚ)
    (resp : PredictionResponse) (now : ℤ)
    (hauto : st.autoMode = true) (hprev : st.prevLandmarks = some P)
    (hP : P ≠ []) (hstable : st.stableCount + 1 < STABILITY_FRAMES) :
    runSingleAutoCapture st true (some ⟨P, c⟩) resp now
      = ({st with stableCount := st.stableCount + 1,
                  statusText := "Hold steady..."}, false) := by
  have hngt := landmarkDistance_self_not_gt hP
  simp [runSingleAutoCapture, hauto, hprev, hngt, hstable]

lemma autoStep_submit (st : ScreenState) (P : List Landmark) (c : ℚ)
    (resp : PredictionResponse) (now : ℤ)
    (hauto : st.autoMode = true) (hprev : st.prevLandmarks = some P)
    (hP : P ≠ []) (hstable : STABILITY_FRAMES ≤ st.stableCount + 1) :
    (runSingleAutoCapture st true (some ⟨P, c⟩) resp now).2 = true ∧
    (runSingleAutoCapture st true (some ⟨P, c⟩) resp now).1.stableCount = 0 ∧
    (runSingleAutoCapture st true (some ⟨P, c⟩) resp now).1.prevLandmarks = some P ∧
    (runSingleAutoCapture st true (some ⟨P, c⟩) resp now).1.autoMode = true := by
  have hngt := landmarkDistance_self_not_gt hP
  have h2 : ¬ (st.stableCount + 1 < STABILITY_FRAMES) := Nat.not_lt.mpr hstable
  simp only [runSingleAutoCapture, hauto, hprev, hngt, h2]
  by_cases herr : resp.error = none
  · by_cases hl : resp.letter = "" ∨ resp.letter = "Unknown"
    · simp [herr, hl, hauto]
    · by_cases hf : (filterStep st.lastAcceptedLetter st.lastAcceptedTime
          resp.letter now).1 = true
      · simp [herr, hl, hf, hauto]
      · simp [herr, hl, hf, hauto]
  · simp [herr, hauto]

/-- C2: from empty tracking state, three admitted frames carrying the
identical pose `P` (pairwise distance 0): frame 1 records `P` as
`previousPose` and sets `stableCount = 1` without calling the classifier;
frame 2 reaches `STABILITY_FRAMES = 2`, resets `stableCount` to 0 and
invokes `apiService.predictSign`; frame 3 does not invoke it again — one
classification over the three frames, whatever the classifier answers. -/
theorem auto_capture_three_identical_frames (P : List Landmark) (hP : P ≠ [])
    (c₁ c₂ c₃ : ℚ) (r₁ r₂ r₃ : PredictionResponse) (t₁ t₂ t₃ : ℤ) :
    (runSingleAutoCapture initialScreen true (some ⟨P, c₁⟩) r₁ t₁).1.prevLandmarks
        = some P ∧
    (runSingleAutoCapture initialScreen true (some ⟨P, c₁⟩) r₁ t₁).1.stableCount = 1 ∧
    (runSingleAutoCapture initialScreen true (some ⟨P, c₁⟩) r₁ t₁).2 = false ∧
    (runSingleAutoCapture
        (runSingleAutoCapture initialScreen true (some ⟨P, c₁⟩) r₁ t₁).1
        true (some ⟨P, c₂⟩) r₂ t₂).1.stableCount = 0 ∧
    (runSingleAutoCapture
        (runSingleAutoCapture initialScreen true (some ⟨P, c₁⟩) r₁ t₁).1
        true (some ⟨P, c₂⟩) r₂ t₂).2 = true ∧
    (runSingleAutoCapture
        (runSingleAutoCapture
            (runSingleAutoCapture initialScreen true (some ⟨P, c₁⟩) r₁ t₁).1
            true (some ⟨P, c₂⟩) r₂ t₂).1
        true (some ⟨P, c₃⟩) r₃ t₃).2 = false := by
  have h1 := autoStep_first initialScreen P c₁ r₁ t₁ rfl rfl
  rw [h1]
  have h2 := autoStep_submit
      ({initialScreen with
          prevLandmarks := some P
          stableCount := 1
          statusText := "Hold steady..."}) P c₂ r₂ t₂ rfl rfl hP
      (by norm_num [STABILITY_FRAMES])
  refine ⟨rfl, rfl, rfl, h2.2.1, h2.1, ?_⟩
  have h3 := autoStep_stabilizing
      (runSingleAutoCapture ({initialScreen with
          prevLandmarks := some P
          stableCount := 1
          statusText := "Hold steady..."}) true
          (some ⟨P, c₂⟩) r₂ t₂).1 P c₃ r₃ t₃ h2.2.2.2 h2.2.2.1 hP
      (by rw [h2.2.1]; norm_num [STABILITY_FRAMES])
  rw [h3]

/-- Witness for C2: the scenario at the concrete one-landmark pose. -/
theorem auto_capture_three_identical_frames_witness :
    (runSingleAutoCapture initialScreen true (some ⟨[⟨0, 0, 0⟩], 1⟩)
        ⟨"A", none, none⟩ 0).1.prevLandmarks = some [⟨0, 0, 0⟩] ∧
    (runSingleAutoCapture initialScreen true (some ⟨[⟨0, 0, 0⟩], 1⟩)
        ⟨"A", none, none⟩ 0).1.stableCount = 1 ∧
    (runSingleAutoCapture initialScreen true (some ⟨[⟨0, 0, 0⟩], 1⟩)
        ⟨"A", none, none⟩ 0).2 = false ∧
    (runSingleAutoCapture
        (runSingleAutoCapture initialScreen true (some ⟨[⟨0, 0, 0⟩], 1⟩)
            ⟨"A", none, none⟩ 0).1
        true (some ⟨[⟨0, 0, 0⟩], 1⟩) ⟨"A", none, none⟩ 1500).1.stableCount = 0 ∧
    (runSingleAutoCapture
        (runSingleAutoCapture initialScreen true (some ⟨[⟨0, 0, 0⟩], 1⟩)
            ⟨"A", none, none⟩ 0).1
        true (some ⟨[⟨0, 0, 0⟩], 1⟩) ⟨"A", none, none⟩ 1500).2 = true ∧
    (runSingleAutoCapture
        (runSingleAutoCapture
            (runSingleAutoCapture initialScreen true (some ⟨[⟨0, 0, 0⟩], 1⟩)
                ⟨"A", none, none⟩ 0).1
            true (some ⟨[⟨0, 0, 0⟩], 1⟩) ⟨"A", none, none⟩ 1500).1
        true (some ⟨[⟨0, 0, 0⟩], 1⟩) ⟨"A", none, none⟩ 3000).2 = false :=
  auto_capture_three_identical_frames [⟨0, 0, 0⟩] (by decide) 1 1 1
    ⟨"A", none, none⟩ ⟨"A", none, none⟩ ⟨"A", none, none⟩ 0 1500 3000

/-- C5: the duplicate/cooldown filter rejects exactly when the offered
letter equals the last accepted one and less than 2000 ms have elapsed,
otherwise accepts and records letter and time; hence the same letter
offered again within 2000 ms of an acceptance is rejected, and offered at
or after 2000 ms it is accepted again. -/
theorem duplicate_filter_cooldown :
    (∀ (ll : String) (lt : ℤ) (l : String) (n : ℤ),
      filterStep ll lt l n
        = if l = ll ∧ n - lt < DUPLICATE_LETTER_COOLDOWN then (false, ll, lt)
          else (true, l, n)) ∧
    (∀ (ll : String) (lt : ℤ) (l : String) (t δ : ℤ),
      (filterStep ll lt l t).1 = true → 0 ≤ δ → δ < DUPLICATE_LETTER_COOLDOWN →
      (filterStep (filterStep ll lt l t).2.1 (filterStep ll lt l t).2.2
          l (t + δ)).1 = false) ∧
    (∀ (ll : String) (lt : ℤ) (l : String) (t δ : ℤ),
      (filterStep ll lt l t).1 = true → DUPLICATE_LETTER_COOLDOWN ≤ δ →
      (filterStep (filterStep ll lt l t).2.1 (filterStep ll lt l t).2.2
          l (t + δ)).1 = true) := by
  refine ⟨fun ll lt l n => rfl, ?_, ?_⟩
  · intro ll lt l t δ hacc h0 hδ
    have hres : filterStep ll lt l t = (true, l, t) := by
      unfold filterStep at hacc ⊢
      by_cases hc : l = ll ∧ t - lt < DUPLICATE_LETTER_COOLDOWN
      · simp [hc] at hacc
      · simp [hc]
    rw [hres]
    unfold filterStep
    simp [hδ]
  · intro ll lt l t δ hacc hδ
    have hres : filterStep ll lt l t = (true, l, t) := by
      unfold filterStep at hacc ⊢
      by_cases hc : l = ll ∧ t - lt < DUPLICATE_LETTER_COOLDOWN
      · simp [hc] at hacc
      · simp [hc]
    rw [hres]
    unfold filterStep
    have hnlt : ¬ (δ < DUPLICATE_LETTER_COOLDOWN) := not_lt.mpr hδ
    simp [hnlt]

/-- Witness for C5: accepting "A" at time 0, offering "A" again at 500 ms
is rejected; offering "A" at 2500 ms is accepted. -/
theorem duplicate_filter_cooldown_witness :
    (filterStep (filterStep "" 0 "A" 0).2.1 (filterStep "" 0 "A" 0).2.2
        "A" (0 + 500)).1 = false ∧
    (filterStep (filterStep "" 0 "A" 0).2.1 (filterStep "" 0 "A" 0).2.2
        "A" (0 + 2500)).1 = true :=
  ⟨duplicate_filter_cooldown.2.1 "" 0 "A" 0 500 (by decide) (by decide) (by decide),
   duplicate_filter_cooldown.2.2 "" 0 "A" 0 2500 (by decide) (by decide)⟩

/-- A concrete screen state in auto mode with a recorded accepted letter,
used to exhibit `toggleAutoMode`'s clearing behaviour. -/
def screenWithAcceptedA : ScreenState :=
  { initialScreen with lastAcceptedLetter := "A", lastAcceptedTime := 1000 }

/-- Counterexample to C6: toggling auto-capture off does NOT leave
`lastAcceptedLetter` unchanged — `toggleAutoMode` clears it to the empty
string (while `lastAcceptedTime` is indeed preserved). -/
theorem toggle_off_clears_lastAcceptedLetter :
    screenWithAcceptedA.autoMode = true ∧
    screenWithAcceptedA.lastAcceptedLetter = "A" ∧
    (toggleAutoMode screenWithAcceptedA).lastAcceptedLetter = "" ∧
    (toggleAutoMode screenWithAcceptedA).lastAcceptedLetter
      ≠ screenWithAcceptedA.lastAcceptedLetter := by
  refine ⟨rfl, rfl, rfl, ?_⟩
  decide

/-- C6 (amended): toggling auto-capture off clears `previousPose`, resets
`stableCount` to 0 and also clears `lastAcceptedLetter` to the empty
string, while `lastAcceptedAtMillis` is left unchanged; a no-hand outcome
in auto mode clears `previousPose` and resets `stableCount` while leaving
both `lastAcceptedLetter` and `lastAcceptedAtMillis` unchanged. -/
theorem toggle_off_and_noHand_reset (st : ScreenState)
    (resp : PredictionResponse) (now : ℤ) (hauto : st.autoMode = true) :
    ((toggleAutoMode st).autoMode = false ∧
     (toggleAutoMode st).prevLandmarks = none ∧
     (toggleAutoMode st).stableCount = 0 ∧
     (toggleAutoMode st).lastAcceptedLetter = "" ∧
     (toggleAutoMode st).lastAcceptedTime = st.lastAcceptedTime) ∧
    ((runSingleAutoCapture st true none resp now).1.prevLandmarks = none ∧
     (runSingleAutoCapture st true none resp now).1.stableCount = 0 ∧
     (runSingleAutoCapture st true none resp now).1.lastAcceptedLetter
        = st.lastAcceptedLetter ∧
     (runSingleAutoCapture st true none resp now).1.lastAcceptedTime
        = st.lastAcceptedTime) := by
  constructor
  · simp [toggleAutoMode, hauto]
  · rw [autoStep_noHand st resp now hauto]
    exact ⟨rfl, rfl, rfl, rfl⟩

/-- Witness for C6 (amended): the resets at a concrete state. -/
theorem toggle_off_and_noHand_reset_witness :
    ((toggleAutoMode screenWithAcceptedA).autoMode = false ∧
     (toggleAutoMode screenWithAcceptedA).prevLandmarks = none ∧
     (toggleAutoMode screenWithAcceptedA).stableCount = 0 ∧
     (toggleAutoMode screenWithAcceptedA).lastAcceptedLetter = "" ∧
     (toggleAutoMode screenWithAcceptedA).lastAcceptedTime
        = screenWithAcceptedA.lastAcceptedTime) ∧
    ((runSingleAutoCapture screenWithAcceptedA true none
        ⟨"A", none, none⟩ 0).1.prevLandmarks = none ∧
     (runSingleAutoCapture screenWithAcceptedA true none
        ⟨"A", none, none⟩ 0).1.stableCount = 0 ∧
     (runSingleAutoCapture screenWithAcceptedA true none
        ⟨"A", none, none⟩ 0).1.lastAcceptedLetter
        = screenWithAcceptedA.lastAcceptedLetter ∧
     (runSingleAutoCapture screenWithAcceptedA true none
        ⟨"A", none, none⟩ 0).1.lastAcceptedTime
        = screenWithAcceptedA.lastAcceptedTime) :=
  toggle_off_and_noHand_reset screenWithAcceptedA ⟨"A", none, none⟩ 0 rfl

/-- C10: the manual capture path never writes the duplicate-filter state —
`handleCapture` leaves `lastAcceptedLetter` and `lastAcceptedTime`
unchanged on every path — so a letter different from the current
`lastAcceptedLetter` that is appended manually is still accepted by the
cooldown filter at any later time. -/
theorem manual_capture_preserves_filter_state (st : ScreenState)
    (photoOk : Bool) (det : Option DetectedLandmarks)
    (resp : PredictionResponse) :
    (handleCapture st photoOk det resp).lastAcceptedLetter
        = st.lastAcceptedLetter ∧
    (handleCapture st photoOk det resp).lastAcceptedTime
        = st.lastAcceptedTime ∧
    (∀ now : ℤ, resp.letter ≠ st.lastAcceptedLetter →
      (filterStep (handleCapture st photoOk det resp).lastAcceptedLetter
          (handleCapture st photoOk det resp).lastAcceptedTime
          resp.letter now).1 = true) := by
  have hfields : (handleCapture st photoOk det resp).lastAcceptedLetter
        = st.lastAcceptedLetter ∧
      (handleCapture st photoOk det resp).lastAcceptedTime
        = st.lastAcceptedTime := by
    unfold handleCapture
    by_cases h1 : st.isCapturing
    · simp [h1]
    · by_cases h2 : st.isDetectorReady
      · cases det with
        | none => by_cases h3 : photoOk <;> simp [h1, h2, h3]
        | some d =>
          by_cases h3 : photoOk
          · by_cases h4 : resp.error = none
            · by_cases h5 : resp.letter ≠ "" ∧ resp.letter ≠ "Unknown" <;>
                simp [h1, h2, h3, h4, h5]
            · simp [h1, h2, h3, h4]
          · simp [h1, h2, h3]
      · simp [h1, h2]
  refine ⟨hfields.1, hfields.2, ?_⟩
  intro now hne
  rw [hfields.1, hfields.2]
  unfold filterStep
  simp [hne]

/-- Witness for C10: a manual capture appending "A" over filter state
("B", 0) leaves that state intact, and "A" is then accepted at 100 ms. -/
theorem manual_capture_preserves_filter_state_witness :
    (handleCapture ({ initialScreen with lastAcceptedLetter := "B" }) true
        (some ⟨[⟨0, 0, 0⟩], 1⟩) ⟨"A", none, none⟩).lastAcceptedLetter = "B" ∧
    (filterStep
        (handleCapture ({ initialScreen with lastAcceptedLetter := "B" }) true
            (some ⟨[⟨0, 0, 0⟩], 1⟩) ⟨"A", none, none⟩).lastAcceptedLetter
        (handleCapture ({ initialScreen with lastAcceptedLetter := "B" }) true
            (some ⟨[⟨0, 0, 0⟩], 1⟩) ⟨"A", none, none⟩).lastAcceptedTime
        "A" 100).1 = true :=
  ⟨(manual_capture_preserves_filter_state
      ({ initialScreen with lastAcceptedLetter := "B" }) true
      (some ⟨[⟨0, 0, 0⟩], 1⟩) ⟨"A", none, none⟩).1,
   (manual_capture_preserves_filter_state
      ({ initialScreen with lastAcceptedLetter := "B" }) true
      (some ⟨[⟨0, 0, 0⟩], 1⟩) ⟨"A", none, none⟩).2.2 100 (by decide)⟩

/-!
## Sentence Buffer

Letters are appended by the capture paths (`setSentence(prev => prev +
letter)`); `handleSpace` appends a single space unless the sentence is
empty or already ends with one.  A run of buffer operations starts from
the empty sentence.
-/

/-- A Sentence Buffer operation: a letter append from a capture path, or
the Space button (`handleSpace`). -/
inductive SentenceOp where
  | append : String → SentenceOp
  | appendSpace : SentenceOp
deriving DecidableEq

def applySentenceOp (s : List Char) : SentenceOp → List Char
  | .append l => s ++ l.data
  | .appendSpace => handleSpace s

def runSentenceOps (ops : List SentenceOp) : List Char :=
  ops.foldl applySentenceOp []

/-- No two adjacent characters of the sentence are both spaces. -/
def noDoubleSpace (s : List Char) : Prop :=
  s.Chain' fun a b => ¬ (a = ' ' ∧ b = ' ')

lemma chain'_of_no_space {l : List Char} (h : ' ' ∉ l) :
    l.Chain' fun a b => ¬ (a = ' ' ∧ b = ' ') := by
  induction l with
  | nil => simp
  | cons c rest ih =>
    rw [List.chain'_cons']
    refine ⟨?_, ih (fun hm => h (List.mem_cons_of_mem _ hm))⟩
    intro y hy hcon
    exact h (by simp [hcon.1])

lemma noDoubleSpace_append {s : List Char} {l : String}
    (hs : noDoubleSpace s) (hl : ' ' ∉ l.data) :
    noDoubleSpace (s ++ l.data) := by
  unfold noDoubleSpace at hs ⊢
  rw [List.chain'_append]
  refine ⟨hs, chain'_of_no_space hl, ?_⟩
  intro x _ y hy hcon
  have : y ∈ l.data := List.mem_of_mem_head? hy
  exact hl (hcon.2 ▸ this)

lemma noDoubleSpace_handleSpace {s : List Char} (hs : noDoubleSpace s) :
    noDoubleSpace (handleSpace s) := by
  unfold handleSpace
  by_cases h0 : s.length = 0
  · simpa [h0] using hs
  · by_cases hlast : s.getLast? = some ' '
    · simpa [h0, hlast] using hs
    · simp only [h0, hlast, if_false]
      unfold noDoubleSpace at hs ⊢
      rw [List.chain'_append]
      refine ⟨hs, by simp, ?_⟩
      intro x hx y hy hcon
      rw [hcon.1] at hx
      exact hlast hx
lemma runSentenceOps_from (s : List Char) (ops : List SentenceOp)
    (hs : noDoubleSpace s)
    (hops : ∀ l, SentenceOp.append l ∈ ops → ' ' ∉ l.data) :
    noDoubleSpace (ops.foldl applySentenceOp s) := by
  induction ops generalizing s with
  | nil => simpa using hs
  | cons op rest ih =>
    rw [List.foldl_cons]
    refine ih (applySentenceOp s op) ?_
        (fun l hl => hops l (List.mem_cons_of_mem _ hl))
    cases op with
    | append l =>
      exact noDoubleSpace_append hs (hops l (List.mem_cons_self _ _))
    | appendSpace => exact noDoubleSpace_handleSpace hs

/-- C9: over any sequence of letter appends (letters contain no space
character) and `handleSpace` calls starting from the empty buffer, the
sentence never contains two adjacent spaces; and `handleSpace` is a no-op
exactly when the buffer is empty or already ends with a space. -/
theorem sentence_never_double_space :
    (∀ ops : List SentenceOp,
      (∀ l, SentenceOp.append l ∈ ops → ' ' ∉ l.data) →
      noDoubleSpace (runSentenceOps ops)) ∧
    (∀ s : List Char, s.length = 0 ∨ s.getLast? = some ' ' →
      handleSpace s = s) := by
  constructor
  · intro ops hops
    exact runSentenceOps_from [] ops (by simp [noDoubleSpace]) hops
  · intro s hs
    rcases hs with hs | hs <;> simp [handleSpace, hs]

/-- Witness for C9: the scenario "HI" then Space twice — the second Space
is a no-op, and the run never produces adjacent spaces. -/
theorem sentence_never_double_space_witness :
    noDoubleSpace (runSentenceOps
      [.append "H", .append "I", .appendSpace, .appendSpace]) ∧
    handleSpace ['H', 'I', ' '] = ['H', 'I', ' '] :=
  ⟨sentence_never_double_space.1
      [.append "H", .append "I", .appendSpace, .appendSpace]
      (by
        intro l hl
        simp only [List.mem_cons, List.not_mem_nil, or_false] at hl
        rcases hl with hl | hl | hl | hl
        · injection hl with h; subst h; decide
        · injection hl with h; subst h; decide
        · exact SentenceOp.noConfusion hl
        · exact SentenceOp.noConfusion hl),
   sentence_never_double_space.2 ['H', 'I', ' '] (Or.inr (by decide))⟩

/-!
## Frame Admission Controller (VideoProcessingService)

`shouldProcessFrame` returns `false` immediately — without touching the
frame counter — while `isProcessing` is set; otherwise it increments
`frameCount` and applies the frame-skip and minimum-interval checks.
-/

structure VideoProcessingConfig where
  frameSkip : ℕ
  minFrameInterval : ℤ
  enableThrottling : Bool
deriving DecidableEq, Repr

def DEFAULT_VIDEO_CONFIG : VideoProcessingConfig :=
  { frameSkip := 3, minFrameInterval := 100, enableThrottling := true }

structure VideoProcessingState where
  frameCount : ℕ
  lastProcessTime : ℤ
  isProcessing : Bool
deriving DecidableEq, Repr

/-- `shouldProcessFrame`, with `Date.now()` passed in as `now`.  Returns
the updated service state and the admission verdict. -/
def shouldProcessFrame (st : VideoProcessingState)
    (config : VideoProcessingConfig) (now : ℤ) :
    VideoProcessingState × Bool :=
  if st.isProcessing then (st, false)
  else
    let st' := {st with frameCount := st.frameCount + 1}
    if config.enableThrottling ∧ st'.frameCount % config.frameSkip ≠ 0 then
      (st', false)
    else if now - st.lastProcessTime < config.minFrameInterval then
      (st', false)
    else
      (st', true)

/-- `startProcessing` / `endProcessing` / `reset`. -/
def startProcessing (st : VideoProcessingState) (now : ℤ) : VideoProcessingState :=
  {st with isProcessing := true, lastProcessTime := now}

def endProcessing (st : VideoProcessingState) : VideoProcessingState :=
  {st with isProcessing := false}

def videoReset : VideoProcessingState :=
  { frameCount := 0, lastProcessTime := 0, isProcessing := false }

/-- Counterexample to C4: a call made while a previous cycle is still
in progress does NOT increment the frame counter — `shouldProcessFrame`
returns `false` before reaching `this.frameCount++`. -/
theorem shouldProcessFrame_busy_does_not_increment :
    (shouldProcessFrame ⟨5, 0, true⟩ DEFAULT_VIDEO_CONFIG 1000).1.frameCount = 5 ∧
    (shouldProcessFrame ⟨5, 0, true⟩ DEFAULT_VIDEO_CONFIG 1000).1.frameCount ≠ 5 + 1 ∧
    (shouldProcessFrame ⟨5, 0, true⟩ DEFAULT_VIDEO_CONFIG 1000).2 = false := by
  refine ⟨rfl, ?_, rfl⟩
  decide

/-- C4 (amended): a call made while a previous cycle is in progress
returns `false` and leaves the whole state — the frame counter included —
unchanged; every other call increments the frame counter, and with
throttling enabled a call whose resulting counter value is not a multiple
of `frameSkip` is not admitted. -/
theorem shouldProcessFrame_counter_and_throttle (st : VideoProcessingState)
    (config : VideoProcessingConfig) (now : ℤ) :
    (st.isProcessing = true →
      shouldProcessFrame st config now = (st, false)) ∧
    (st.isProcessing = false →
      (shouldProcessFrame st config now).1.frameCount = st.frameCount + 1) ∧
    (st.isProcessing = false → config.enableThrottling = true →
      (st.frameCount + 1) % config.frameSkip ≠ 0 →
      shouldProcessFrame st config now
        = ({st with frameCount := st.frameCount + 1}, false)) := by
  refine ⟨fun h => by simp [shouldProcessFrame, h], fun h => ?_, fun h ht hm => ?_⟩
  · unfold shouldProcessFrame
    simp only [h, Bool.false_eq_true, if_false]
    by_cases h1 : config.enableThrottling ∧ (st.frameCount + 1) % config.frameSkip ≠ 0
    · simp [h1]
    · by_cases h2 : now - st.lastProcessTime < config.minFrameInterval <;>
        simp [h1, h2]
  · unfold shouldProcessFrame
    simp [h, ht, hm]

/-- Witness for C4 (amended): with the default config (frameSkip 3), an
idle call at counter 0 yields counter 1, which is not a multiple of 3,
and is not admitted. -/
theorem shouldProcessFrame_counter_and_throttle_witness :
    shouldProcessFrame ⟨0, 0, false⟩ DEFAULT_VIDEO_CONFIG 1000
      = (⟨1, 0, false⟩, false) :=
  (shouldProcessFrame_counter_and_throttle ⟨0, 0, false⟩ DEFAULT_VIDEO_CONFIG
      1000).2.2 rfl rfl (by decide)

/-!
## Classification Client retry policy (ApiService.predictSignWithRetry)

`predictSign` converts an axios outcome into a `PredictionResponse`,
encoding failures in the `error` string.  `predictSignWithRetry` loops up
to `maxAttempts` times, returning immediately on a response without error
or whose error message contains "Server error", and otherwise waiting
`RETRY_DELAY * 2 ^ (attempt - 1)` ms before the next attempt.
-/

-- API_CONFIG constants
def API_TIMEOUT : ℕ := 10000
def RETRY_ATTEMPTS : ℕ := 3
def RETRY_DELAY : ℕ := 1000

/-- The network-level outcome of one `predictSign` POST, as classified by
the axios error handling: a response body, an error-status response
(`error.response`, a 4xx/5xx rejection), a request with no response
(`error.request`), or any other failure. -/
inductive NetOutcome where
  | ok : PredictionResponse → NetOutcome
  | httpError : ℕ → String → NetOutcome
  | noResponse : NetOutcome
  | otherFailure : NetOutcome
deriving DecidableEq

def serverErrorMessage (status : ℕ) (text : String) : String :=
  "Server error: " ++ (toString status ++ (" - " ++ text))

def NO_RESPONSE_ERROR : String :=
  "No response from server. Check your internet connection."

def GENERIC_PREDICT_ERROR : String := "Failed to predict sign. Please try again."

/-- `predictSign`'s returned `PredictionResponse` for each outcome. -/
def predictSignResult (net : NetOutcome) : PredictionResponse :=
  match net with
  | .ok resp => resp
  | .httpError status text => ⟨"", none, some (serverErrorMessage status text)⟩
  | .noResponse => ⟨"", none, some NO_RESPONSE_ERROR⟩
  | .otherFailure => ⟨"", none, some GENERIC_PREDICT_ERROR⟩

/-- `result.error.includes('Server error')`. -/
def includesServerError (s : String) : Bool :=
  decide ("Server error".data <:+: s.data)

/-- What a `predictSignWithRetry` run produces: the returned response, the
number of `predictSign` attempts actually made, and the list of backoff
delays waited (in order). -/
structure RetryResult where
  response : PredictionResponse
  attempts : ℕ
  delays : List ℕ
deriving DecidableEq

/-- The retry loop over the remaining attempt numbers, carrying
`lastError`; `outcomes k` is the network outcome of the `k`-th attempt. -/
def retryList (outcomes : ℕ → NetOutcome) (maxAttempts : ℕ) :
    List ℕ → String → RetryResult
  | [], lastError =>
      ⟨⟨"", none,
        some (if lastError = "" then "Max retry attempts reached" else lastError)⟩,
       0, []⟩
  | attempt :: rest, _lastError =>
      let result := predictSignResult (outcomes attempt)
      match result.error with
      | none => ⟨result, 1, []⟩
      | some err =>
        if includesServerError err then ⟨result, 1, []⟩
        else
          let r := retryList outcomes maxAttempts rest err
          if attempt < maxAttempts then
            ⟨r.response, r.attempts + 1, (RETRY_DELAY * 2 ^ (attempt - 1)) :: r.delays⟩
          else
            ⟨r.response, r.attempts + 1, r.delays⟩

/-- `predictSignWithRetry`: attempts `1, 2, …, maxAttempts`. -/
def predictSignWithRetry (outcomes : ℕ → NetOutcome) (maxAttempts : ℕ) : RetryResult :=
  retryList outcomes maxAttempts (List.range' 1 maxAttempts) ""

lemma includesServerError_server (status : ℕ) (text : String) :
    includesServerError (serverErrorMessage status text) = true := by
  unfold includesServerError serverErrorMessage
  rw [decide_eq_true_eq]
  have h1 : "Server error".data <+: "Server error: ".data := by decide
  have h2 : "Server error: ".data
      <+: ("Server error: " ++ (toString status ++ (" - " ++ text))).data :=
    ⟨(toString status ++ (" - " ++ text)).data, (String.data_append _ _).symm⟩
  exact (h1.trans h2).isInfix

lemma includesServerError_noResponse :
    includesServerError NO_RESPONSE_ERROR = false := by decide

lemma includesServerError_generic :
    includesServerError GENERIC_PREDICT_ERROR = false := by decide

lemma retryList_ok (outcomes : ℕ → NetOutcome) (m a : ℕ) (rest : List ℕ)
    (le : String) (resp : PredictionResponse)
    (h : outcomes a = .ok resp) (he : resp.error = none) :
    retryList outcomes m (a :: rest) le = ⟨resp, 1, []⟩ := by
  simp [retryList, h, predictSignResult, he]

lemma retryList_http (outcomes : ℕ → NetOutcome) (m a : ℕ) (rest : List ℕ)
    (le : String) (status : ℕ) (text : String)
    (h : outcomes a = .httpError status text) :
    retryList outcomes m (a :: rest) le
      = ⟨⟨"", none, some (serverErrorMessage status text)⟩, 1, []⟩ := by
  simp [retryList, h, predictSignResult, includesServerError_server]

lemma retryList_noResponse (outcomes : ℕ → NetOutcome) (m a : ℕ)
    (rest : List ℕ) (le : String) (h : outcomes a = .noResponse) :
    retryList outcomes m (a :: rest) le
      = if a < m then
          ⟨(retryList outcomes m rest NO_RESPONSE_ERROR).response,
           (retryList outcomes m rest NO_RESPONSE_ERROR).attempts + 1,
           (RETRY_DELAY * 2 ^ (a - 1))
             :: (retryList outcomes m rest NO_RESPONSE_ERROR).delays⟩
        else
          ⟨(retryList outcomes m rest NO_RESPONSE_ERROR).response,
           (retryList outcomes m rest NO_RESPONSE_ERROR).attempts + 1,
           (retryList outcomes m rest NO_RESPONSE_ERROR).delays⟩ := by
  simp [retryList, h, predictSignResult, includesServerError_noResponse]

lemma retryList_otherFailure (outcomes : ℕ → NetOutcome) (m a : ℕ)
    (rest : List ℕ) (le : String) (h : outcomes a = .otherFailure) :
    retryList outcomes m (a :: rest) le
      = if a < m then
          ⟨(retryList outcomes m rest GENERIC_PREDICT_ERROR).response,
           (retryList outcomes m rest GENERIC_PREDICT_ERROR).attempts + 1,
           (RETRY_DELAY * 2 ^ (a - 1))
             :: (retryList outcomes m rest GENERIC_PREDICT_ERROR).delays⟩
        else
          ⟨(retryList outcomes m rest GENERIC_PREDICT_ERROR).response,
           (retryList outcomes m rest GENERIC_PREDICT_ERROR).attempts + 1,
           (retryList outcomes m rest GENERIC_PREDICT_ERROR).delays⟩ := by
  simp [retryList, h, predictSignResult, includesServerError_generic]

lemma retryList_attempts_le (outcomes : ℕ → NetOutcome) (m : ℕ) :
    ∀ (as : List ℕ) (le : String),
      (retryList outcomes m as le).attempts ≤ as.length := by
  intro as
  induction as with
  | nil => intro le; simp [retryList]
  | cons a rest ih =>
    intro le
    cases hout : outcomes a with
    | ok resp =>
      rcases he : resp.error with _ | e
      · rw [retryList_ok outcomes m a rest le resp hout he]; simp
      · by_cases hse : includesServerError e = true
        · simp only [retryList, hout, predictSignResult, he, hse, if_true]
          simp
        · by_cases ham : a < m <;>
            simp [retryList, hout, predictSignResult, he, hse, ham,
              Nat.succ_le_succ (ih e)]
    | httpError status text =>
      rw [retryList_http outcomes m a rest le status text hout]; simp
    | noResponse =>
      rw [retryList_noResponse outcomes m a rest le hout]
      by_cases ham : a < m <;> simp [ham, Nat.succ_le_succ (ih _)]
    | otherFailure =>
      rw [retryList_otherFailure outcomes m a rest le hout]
      by_cases ham : a < m <;> simp [ham, Nat.succ_le_succ (ih _)]

lemma retryList_delays (outcomes : ℕ → NetOutcome) (m : ℕ) :
    ∀ (as : List ℕ) (le : String),
      ∃ k, k ≤ as.length ∧
        (retryList outcomes m as le).delays
          = ((as.take k).filter fun a => decide (a < m)).map
              fun a => RETRY_DELAY * 2 ^ (a - 1) := by
  intro as
  induction as with
  | nil => intro le; exact ⟨0, by simp, by simp [retryList]⟩
  | cons a rest ih =>
    intro le
    cases hout : outcomes a with
    | ok resp =>
      rcases he : resp.error with _ | e
      · rw [retryList_ok outcomes m a rest le resp hout he]
        exact ⟨0, by simp, by simp⟩
      · by_cases hse : includesServerError e = true
        · refine ⟨0, by simp, ?_⟩
          simp [retryList, hout, predictSignResult, he, hse]
        · obtain ⟨k, hk, hd⟩ := ih e
          by_cases ham : a < m
          · refine ⟨k + 1, by simpa using hk, ?_⟩
            simp [retryList, hout, predictSignResult, he, hse, ham, hd]
          · refine ⟨k + 1, by simpa using hk, ?_⟩
            simp [retryList, hout, predictSignResult, he, hse, ham, hd]
    | httpError status text =>
      rw [retryList_http outcomes m a rest le status text hout]
      exact ⟨0, by simp, by simp⟩
    | noResponse =>
      rw [retryList_noResponse outcomes m a rest le hout]
      obtain ⟨k, hk, hd⟩ := ih NO_RESPONSE_ERROR
      by_cases ham : a < m
      · exact ⟨k + 1, by simpa using hk, by simp [ham, hd]⟩
      · exact ⟨k + 1, by simpa using hk, by simp [ham, hd]⟩
    | otherFailure =>
      rw [retryList_otherFailure outcomes m a rest le hout]
      obtain ⟨k, hk, hd⟩ := ih GENERIC_PREDICT_ERROR
      by_cases ham : a < m
      · exact ⟨k + 1, by simpa using hk, by simp [ham, hd]⟩
      · exact ⟨k + 1, by simpa using hk, by simp [ham, hd]⟩

lemma retryList_retried_transport (outcomes : ℕ → NetOutcome) (m : ℕ)
    (hok : ∀ (k : ℕ) (resp : PredictionResponse),
      outcomes k = .ok resp → resp.error = none) :
    ∀ (as : List ℕ) (le : String) (j : ℕ),
      j ∈ as.take ((retryList outcomes m as le).attempts - 1) →
      outcomes j = .noResponse ∨ outcomes j = .otherFailure := by
  intro as
  induction as with
  | nil => intro le j hj; simp [retryList] at hj
  | cons a rest ih =>
    intro le j hj
    cases hout : outcomes a with
    | ok resp =>
      rw [retryList_ok outcomes m a rest le resp hout (hok a resp hout)] at hj
      simp at hj
    | httpError status text =>
      rw [retryList_http outcomes m a rest le status text hout] at hj
      simp at hj
    | noResponse =>
      rw [retryList_noResponse outcomes m a rest le hout] at hj
      have hj' : j ∈ (a :: rest).take
          ((retryList outcomes m rest NO_RESPONSE_ERROR).attempts + 1 - 1) := by
        by_cases ham : a < m <;> simpa [ham] using hj
      rw [Nat.add_sub_cancel] at hj'
      rcases hatt : (retryList outcomes m rest NO_RESPONSE_ERROR).attempts with _ | n
      · rw [hatt] at hj'; simp at hj'
      · rw [hatt, List.take_succ_cons] at hj'
        rcases List.mem_cons.mp hj' with hj'' | hj''
        · subst hj''; exact Or.inl hout
        · refine ih NO_RESPONSE_ERROR j ?_
          rw [hatt]
          simpa using hj''
    | otherFailure =>
      rw [retryList_otherFailure outcomes m a rest le hout] at hj
      have hj' : j ∈ (a :: rest).take
          ((retryList outcomes m rest GENERIC_PREDICT_ERROR).attempts + 1 - 1) := by
        by_cases ham : a < m <;> simpa [ham] using hj
      rw [Nat.add_sub_cancel] at hj'
      rcases hatt : (retryList outcomes m rest GENERIC_PREDICT_ERROR).attempts
          with _ | n
      · rw [hatt] at hj'; simp at hj'
      · rw [hatt, List.take_succ_cons] at hj'
        rcases List.mem_cons.mp hj' with hj'' | hj''
        · subst hj''; exact Or.inr hout
        · refine ih GENERIC_PREDICT_ERROR j ?_
          rw [hatt]
          simpa using hj''

/-- C7: with `RETRY_ATTEMPTS = 3` and a classifier whose successful
responses carry no error body, `predictSignWithRetry` makes at most 3
attempts, the backoff waits are `RETRY_DELAY * 2 ^ (attempt - 1)` — 1000 ms
then 2000 ms, in order, a prefix of that schedule — a 4xx/5xx ("Server
error") result on the first attempt is returned immediately with no
further attempts, and every attempt that was followed by a retry was a
no-response or transport-level failure. -/
theorem predictSignWithRetry_policy (outcomes : ℕ → NetOutcome)
    (hok : ∀ (k : ℕ) (resp : PredictionResponse),
      outcomes k = .ok resp → resp.error = none) :
    (predictSignWithRetry outcomes RETRY_ATTEMPTS).attempts ≤ RETRY_ATTEMPTS ∧
    ((predictSignWithRetry outcomes RETRY_ATTEMPTS).delays = [] ∨
     (predictSignWithRetry outcomes RETRY_ATTEMPTS).delays
        = [RETRY_DELAY * 2 ^ 0] ∨
     (predictSignWithRetry outcomes RETRY_ATTEMPTS).delays
        = [RETRY_DELAY * 2 ^ 0, RETRY_DELAY * 2 ^ 1]) ∧
    (∀ (status : ℕ) (text : String), outcomes 1 = .httpError status text →
      (predictSignWithRetry outcomes RETRY_ATTEMPTS).response
          = predictSignResult (.httpError status text) ∧
      (predictSignWithRetry outcomes RETRY_ATTEMPTS).attempts = 1) ∧
    (∀ j, 1 ≤ j → j < (predictSignWithRetry outcomes RETRY_ATTEMPTS).attempts →
      outcomes j = .noResponse ∨ outcomes j = .otherFailure) := by
  have hpe : predictSignWithRetry outcomes RETRY_ATTEMPTS
      = retryList outcomes RETRY_ATTEMPTS [1, 2, 3] "" := rfl
  have hle : (retryList outcomes RETRY_ATTEMPTS [1, 2, 3] "").attempts ≤ 3 := by
    simpa using retryList_attempts_le outcomes RETRY_ATTEMPTS [1, 2, 3] ""
  refine ⟨by rw [hpe]; simpa [RETRY_ATTEMPTS] using hle, ?_, ?_, ?_⟩
  · obtain ⟨k, hk, hd⟩ := retryList_delays outcomes RETRY_ATTEMPTS [1, 2, 3] ""
    rw [hpe, hd]
    simp only [List.length_cons, List.length_nil] at hk
    interval_cases k
    · simp
    · right; left; decide
    · right; right; decide
    · right; right; decide
  · intro status text h1
    rw [hpe, retryList_http outcomes RETRY_ATTEMPTS 1 [2, 3] "" status text h1]
    exact ⟨rfl, rfl⟩
  · intro j hj1 hj2
    rw [hpe] at hj2
    refine retryList_retried_transport outcomes RETRY_ATTEMPTS hok [1, 2, 3] "" j ?_
    have h23 : (retryList outcomes RETRY_ATTEMPTS [1, 2, 3] "").attempts = 2 ∨
        (retryList outcomes RETRY_ATTEMPTS [1, 2, 3] "").attempts = 3 := by omega
    rcases h23 with h | h <;> rw [h] <;> simp <;> omega

/-- Witness for C7: a 500 rejection on the first attempt is returned
immediately, with exactly one attempt made. -/
theorem predictSignWithRetry_policy_witness :
    (predictSignWithRetry (fun _ => .httpError 500 "Internal Server Error")
        RETRY_ATTEMPTS).response
      = ⟨"", none, some (serverErrorMessage 500 "Internal Server Error")⟩ ∧
    (predictSignWithRetry (fun _ => .httpError 500 "Internal Server Error")
        RETRY_ATTEMPTS).attempts = 1 :=
  (predictSignWithRetry_policy (fun _ => .httpError 500 "Internal Server Error")
      (fun _ _ h => NetOutcome.noConfusion h)).2.2.1 500 "Internal Server Error" rfl
